import Mathlib

/-!
Verification of the TraceX linking / analysis core against its design
specification.  The Python sources `src/link/linker.py`,
`src/link/hierarchical_linker.py` and `src/analyze/analyzer.py` are embedded
shallowly: floating point scores become `ℚ`, Python strings become `String`
(or `List Char` where character-level scanning is needed), dictionaries become
association lists or total functions with the same `.get`-defaults as the
code, and the recursive DFS over the link graph is given an explicit fuel
parameter so divergence of the unguarded Python recursion is visible as a
`none` result for every fuel value.
-/

namespace TraceX

/-! ## Character and list utilities used by the embeddings -/

/-- Split a character list on a separator character.  Mirrors Python
`str.split(sep)` for one-character separators: the result always has one
element more than the number of separator occurrences, and the empty input
yields `[[]]` (Python: `''.split('-') == ['']`). -/
def splitOnChar (sep : Char) : List Char → List (List Char)
  | [] => [[]]
  | c :: rest =>
    let r := splitOnChar sep rest
    if c = sep then [] :: r
    else
      match r with
      | [] => [[c]]
      | s :: ss => (c :: s) :: ss

/-- `matchesFront n h` is true when the list `n` occurs at the very front of
`h` (the first step of Python substring search). -/
def matchesFront : List Char → List Char → Bool
  | [], _ => true
  | _ :: _, [] => false
  | a :: as, b :: bs => a = b && matchesFront as bs

/-- `occursIn needle hay` models the Python expression `needle in hay` on
strings: `needle` occurs contiguously somewhere in `hay`.  The empty needle
occurs in every haystack, exactly as in Python. -/
def occursIn (needle : List Char) : List Char → Bool
  | [] => needle.isEmpty
  | c :: rest => matchesFront needle (c :: rest) || occursIn needle rest

/-- Option-valued `mapM` written out explicitly: the whole traversal fails as
soon as one element fails.  Used to propagate fuel exhaustion through the DFS
over all children of a node. -/
def optionMapM {α β : Type} (f : α → Option β) : List α → Option (List β)
  | [] => some []
  | x :: xs =>
    match f x with
    | none => none
    | some y =>
      match optionMapM f xs with
      | none => none
      | some ys => some (y :: ys)

/-- Lookup in an association list, modelling Python `dict.get` (first match;
the Python dicts here are keyed uniquely so first match is the match). -/
def alistGet {α : Type} (l : List (String × α)) (k : String) : Option α :=
  (l.find? (fun p => p.1 = k)).map Prod.snd

/-! ## IDHierarchyResolver — `linker.py`, `extract_id_hierarchy` and
`compute_id_relationship_boost` -/

/-- One character of an uppercase run, regex class `[A-Z]`. -/
def isUpperAZ (c : Char) : Bool := 'A' ≤ c && c ≤ 'Z'

/-- One character of a digit run, regex class `\d` over ASCII. -/
def isDigit09 (c : Char) : Bool := '0' ≤ c && c ≤ '9'

/-- Nonempty all-uppercase segment, regex `[A-Z]+`. -/
def upperSeg (s : List Char) : Bool := !s.isEmpty && s.all isUpperAZ

/-- Nonempty all-digit segment, regex `\d+`. -/
def digitSeg (s : List Char) : Bool := !s.isEmpty && s.all isDigit09

/-- Full-string match of the pattern
`PREFIX-NUMBER[-LETTERS][-DIGITS]` used by `extract_id_hierarchy`
(in the source a regex anchored at both ends).  Since every group excludes
the separator, matching is equivalent to splitting the id on dashes and
checking each segment, which is how it is rendered here.  Returns the tuple
of groups `(PREFIX, NUMBER, LETTERS?, DIGITS?)` on success. -/
def parseArtifactId (artifact_id : String) :
    Option (List Char × List Char × Option (List Char) × Option (List Char)) :=
  match splitOnChar '-' artifact_id.data with
  | [p, n] =>
    if upperSeg p && digitSeg n then some (p, n, none, none) else none
  | [p, n, x] =>
    if upperSeg p && digitSeg n then
      if upperSeg x then some (p, n, some x, none)
      else if digitSeg x then some (p, n, none, some x)
      else none
    else none
  | [p, n, x, y] =>
    if upperSeg p && digitSeg n && upperSeg x && digitSeg y then
      some (p, n, some x, some y)
    else none
  | _ => none

/-- Result record of `extract_id_hierarchy` (the Python dict
`{base, suffix, parent_ref, prefix}`; the last key is absent for
non-conforming ids, rendered here as `none`). -/
structure IdInfo where
  base : String
  suffix : Option String
  parent_ref : Option String
  pfx : Option String
deriving DecidableEq, Repr

/-- `extract_id_hierarchy` from `linker.py`: parse the id against the pattern;
non-conforming ids yield `{base: id, suffix: none, parent_ref: none}`, and a
conforming `HLR-num-letters` id gets parent reference `SYS-num` while a
conforming `LLR-num-letters[-digits]` id gets `HLR-num-letters`. -/
def extract_id_hierarchy (artifact_id : String) : IdInfo :=
  match parseArtifactId artifact_id with
  | none => ⟨artifact_id, none, none, none⟩
  | some (p, n, letter, subnum) =>
    { base := String.mk p ++ "-" ++ String.mk n
      suffix :=
        match letter with
        | some l => some (String.mk l)
        | none => subnum.map String.mk
      parent_ref :=
        match letter with
        | some l =>
          if String.mk p = "HLR" then some ("SYS-" ++ String.mk n)
          else if String.mk p = "LLR" then
            some ("HLR-" ++ String.mk n ++ "-" ++ String.mk l)
          else none
        | none => none
      pfx := some (String.mk p) }

/-- Last dash-separated segment of a string,
Python `s.split('-')[-1]` (split never returns an empty list). -/
def lastDashSegment (s : String) : List Char :=
  (splitOnChar '-' s.data).getLastD []

/-- `compute_id_relationship_boost` from `linker.py`: 0.3 when either id's
inferred parent reference is exactly the other id, else 0.2 when the two
bases end in the same numeric segment, else 0. -/
def compute_id_relationship_boost (source_id target_id : String) : ℚ :=
  let source_info := extract_id_hierarchy source_id
  let target_info := extract_id_hierarchy target_id
  if source_info.parent_ref = some target_id ∨
     target_info.parent_ref = some source_id then 3/10
  else if lastDashSegment source_info.base = lastDashSegment target_info.base
    then 2/10
  else 0

/-! ## SignalScorer — `compute_variable_name_match` and
`compute_combined_score` from `linker.py` -/

/-- `compute_variable_name_match` from `linker.py`.  Texts are `List Char`;
`llr_refs` models `llr['extracted']['referenced_ids']`.  The three branches:
exact substring of the variable name in the LLR text scores 1.0,
a case-insensitive hit among the referenced ids scores 0.9, and a partial
match on underscore-separated name parts scores `0.5 + 0.3·matched/parts`.
The human-readable reason strings are kept except for the quote characters
around the interpolated name. -/
def compute_variable_name_match (var_name llr_text : List Char)
    (llr_refs : List (List Char)) : ℚ × List String :=
  if occursIn var_name llr_text then
    (1, ["Exact match: " ++ String.mk var_name ++ " in LLR text"])
  else if (llr_refs.map (List.map Char.toLower)).contains
      (var_name.map Char.toLower) then
    (9/10, ["Variable " ++ String.mk var_name ++ " extracted from LLR text"])
  else
    let var_parts := splitOnChar '_' (var_name.map Char.toLower)
    let hits :=
      (var_parts.filter (fun part => occursIn part (llr_text.map Char.toLower))).length
    if hits > 0 then
      (1/2 + (3/10) * hits / var_parts.length,
        ["Partial match: " ++ toString hits ++ "/" ++ toString var_parts.length
          ++ " parts of " ++ String.mk var_name])
    else (0, [])

/-- The weight dictionary taken by `compute_combined_score`. -/
structure Weights where
  embedding : ℚ
  keyword : ℚ
  quantity : ℚ
  name : ℚ
deriving DecidableEq, Repr

/-- Defaults used when `compute_combined_score` is called with
`weights=None`, as the hierarchical linker does. -/
def defaultWeights : Weights := ⟨45/100, 25/100, 15/100, 15/100⟩

/-- `compute_combined_score` from `linker.py`: weighted sum of the four
signals (the quantity flag contributing 0 or 1) plus the additive id boost,
then `min(1.0, ·)` — the clamp is one-sided. -/
def compute_combined_score (embedding_sim keyword_score : ℚ)
    (quantity_match : Bool) (name_match_score id_boost : ℚ)
    (weights : Weights) : ℚ :=
  min 1
    (weights.embedding * embedding_sim +
     weights.keyword * keyword_score +
     weights.quantity * (if quantity_match then 1 else 0) +
     weights.name * name_match_score +
     id_boost)

/-! ## QualityGate — `_passes_quality_filters` in both linkers -/

/-- The two quality-filter configuration values the gates read, with the
`.get` defaults from the source (`min_text_overlap` 0.05,
`min_combined_signals` 2). -/
structure QualityFilters where
  min_text_overlap : ℚ
  min_combined_signals : ℕ
deriving DecidableEq, Repr

/-- The `.get` defaults used by both gates. -/
def defaultQualityFilters : QualityFilters := ⟨5/100, 2⟩

/-- The strong-signal disjunction shared by both gate implementations:
keyword score above 0.20, or embedding similarity above 0.30, or the
combination embedding above 0.20 with keyword above 0.12. -/
def hasStrongSignal (emb_sim keyword_score : ℚ) : Bool :=
  decide (keyword_score > 20/100) || decide (emb_sim > 30/100) ||
    (decide (emb_sim > 20/100) && decide (keyword_score > 12/100))

/-- The count of active moderate signals shared by both gate
implementations: embedding above 0.12, keyword above 0.05, quantity match,
name score above 0.10, id boost above 0.05. -/
def moderateSignalCount (emb_sim keyword_score : ℚ) (quantity_match : Bool)
    (name_score id_boost : ℚ) : ℕ :=
  (if emb_sim > 12/100 then 1 else 0) +
  (if keyword_score > 5/100 then 1 else 0) +
  (if quantity_match then 1 else 0) +
  (if name_score > 10/100 then 1 else 0) +
  (if id_boost > 5/100 then 1 else 0)

/-- `HierarchicalLinker._passes_quality_filters`: floor on the combined
score, then strong signal, then at least `min_combined_signals` moderate
signals. -/
def hier_passes_quality_filters (filters : QualityFilters)
    (combined_score emb_sim keyword_score : ℚ) (quantity_match : Bool)
    (name_score id_boost : ℚ) : Bool :=
  if combined_score < filters.min_text_overlap then false
  else if hasStrongSignal emb_sim keyword_score then true
  else decide (moderateSignalCount emb_sim keyword_score quantity_match
      name_score id_boost ≥ filters.min_combined_signals)

/-- `LinkManager._passes_quality_filters`: floor on the embedding similarity,
then strong signal, then the moderate-signal count, and finally the special
case accepting an id boost above 0.10 together with at least one active
moderate signal. -/
def lm_passes_quality_filters (filters : QualityFilters)
    (emb_sim keyword_score : ℚ) (quantity_match : Bool)
    (name_score id_boost : ℚ) : Bool :=
  if emb_sim < filters.min_text_overlap then false
  else if hasStrongSignal emb_sim keyword_score then true
  else if moderateSignalCount emb_sim keyword_score quantity_match
      name_score id_boost ≥ filters.min_combined_signals then true
  else if id_boost > 10/100 ∧
      moderateSignalCount emb_sim keyword_score quantity_match
        name_score id_boost ≥ 1 then true
  else false

/-! ## Artifacts and candidate generation -/

/-- The artifact fields the linking core reads.  `text`, `name` and
`referenced_ids` are character lists so the variable-name scorer can run on
them; `atype` is the `type` string of the Python dict. -/
structure Artifact where
  id : String
  atype : String
  text : List Char
  name : List Char
  referenced_ids : List (List Char)
deriving DecidableEq, Repr

/-- The keyword and quantity scorers are independent signal components
(`compute_keyword_score`, `compute_quantity_match` in `linker.py`); the
candidate-generation pipeline only ever reads the score component of their
results, so they are passed in as parameters here, keeping the pipeline's
theorems valid for every scorer. -/
structure SignalFns where
  keyword : Artifact → Artifact → ℚ × List String
  quantity : Artifact → Artifact → Bool × List String

/-- Descending comparison on scored candidates used by both generators;
`list.sort(key=score, reverse=True)` in Python is a stable descending sort,
as `mergeSort` with this comparator is. -/
def scoreDesc (a b : String × ℚ) : Bool := decide (b.2 ≤ a.2)

/-- `HierarchicalLinker._find_candidates`.  `similar` is the ranked
`(artifact_id, embedding_similarity)` list the similarity oracle returned.
For each neighbor: drop it unless its artifact exists and has the requested
target type, compute the signals (the variable-name signal only on an
LLR source against a CODE_VAR target), combine them with the function's
default weights, drop gate failures and scores below `threshold`, then sort
by combined score descending and truncate to `top_k`.  Note there is no
self-id check in this implementation. -/
def hier_find_candidates (artifacts : List (String × Artifact))
    (fns : SignalFns) (filters : QualityFilters) (source : Artifact)
    (target_type : String) (threshold : ℚ) (top_k : ℕ)
    (similar : List (String × ℚ)) : List (String × ℚ) :=
  let candidates := similar.filterMap (fun te =>
    match alistGet artifacts te.1 with
    | none => none
    | some target =>
      if target.atype ≠ target_type then none
      else
        let keyword_score := (fns.keyword source target).1
        let quantity_match := (fns.quantity source target).1
        let name_score :=
          if source.atype = "LLR" ∧ target.atype = "CODE_VAR" then
            (compute_variable_name_match target.name source.text
              source.referenced_ids).1
          else 0
        let id_boost := compute_id_relationship_boost source.id te.1
        let combined_score := compute_combined_score te.2 keyword_score
          quantity_match name_score id_boost defaultWeights
        if hier_passes_quality_filters filters combined_score te.2
            keyword_score quantity_match name_score id_boost then
          if combined_score ≥ threshold then some (te.1, combined_score)
          else none
        else none)
  (candidates.mergeSort scoreDesc).take top_k

/-- `LinkManager.find_candidates`.  Differences from the hierarchical
version, mirrored from the source: neighbors equal to the source id are
skipped, the variable-name signal is keyed on the target type alone, the
gate floor is on the embedding similarity, the weights come from the
configuration, and the result is truncated to
`min top_k max_links_per_source`. -/
def lm_find_candidates (artifacts : List (String × Artifact))
    (fns : SignalFns) (weights : Weights) (filters : QualityFilters)
    (source : Artifact) (target_type : String) (top_k max_links : ℕ)
    (similar : List (String × ℚ)) : List (String × ℚ) :=
  let results := similar.filterMap (fun ce =>
    if ce.1 = source.id then none
    else
      match alistGet artifacts ce.1 with
      | none => none
      | some candidate =>
        if candidate.atype ≠ target_type then none
        else
          let keyword_score := (fns.keyword source candidate).1
          let quantity_match := (fns.quantity source candidate).1
          let name_score :=
            if target_type = "CODE_VAR" then
              (compute_variable_name_match candidate.name source.text
                source.referenced_ids).1
            else 0
          let id_boost := compute_id_relationship_boost source.id ce.1
          let combined_score := compute_combined_score ce.2 keyword_score
            quantity_match name_score id_boost weights
          if lm_passes_quality_filters filters ce.2 keyword_score
              quantity_match name_score id_boost then
            some (ce.1, combined_score)
          else none)
  (results.mergeSort scoreDesc).take (min top_k max_links)

/-! ## LLM target selection — `HierarchicalLinker._llm_select_targets` -/

/-- One generator candidate as handed to the adjudicator: its target id and
combined score (the explanation payload of `match_details` is carried along
by the code but never branched on, so it is omitted). -/
structure LinkCandidate where
  target_id : String
  score : ℚ
deriving DecidableEq, Repr

/-- One entry of the parsed `selected_targets` array.  `confidence` is
`none` when the Python `float(...)` conversion of the field raises, `some q`
when it yields the number `q`. -/
structure RawSelection where
  target_id : String
  confidence : Option ℚ
  reasoning : String
deriving DecidableEq, Repr

/-- The three outcomes the exception structure of `_llm_select_targets`
distinguishes: the API call raising, `json.loads` failing after the textual
repairs, or a parsed response carrying a `selected_targets` list. -/
inductive LLMOutcome where
  | apiError : LLMOutcome
  | parseError : LLMOutcome
  | parsed : List RawSelection → LLMOutcome
deriving DecidableEq, Repr

/-- An accepted target as returned to `_link_layer`. -/
structure SelectedTarget where
  target_id : String
  confidence : ℚ
  reasoning : String
deriving DecidableEq, Repr

/-- The fallback both error branches share: accept the first three
candidates at their generator scores. -/
def llmFallback (candidates : List LinkCandidate) (reason : String) :
    List SelectedTarget :=
  (candidates.take 3).map (fun c => ⟨c.target_id, c.score, reason⟩)

/-- `_llm_select_targets` after the oracle interaction, as a function of the
candidate list and the response outcome: candidates are first truncated to
the top 10; an API error or unparsable JSON falls back to the top three
candidates; a parsed response keeps, in order, those selections whose
confidence converts to a number at least 0.6 and whose target id matches a
candidate. -/
def llm_select_targets (candidates0 : List LinkCandidate)
    (outcome : LLMOutcome) : List SelectedTarget :=
  let candidates := candidates0.take 10
  match outcome with
  | .apiError => llmFallback candidates "LLM unavailable, using multi-signal match"
  | .parseError => llmFallback candidates "JSON parse failed, using multi-signal match"
  | .parsed selected =>
    selected.filterMap (fun sel =>
      match sel.confidence with
      | none => none
      | some confidence =>
        if confidence ≥ 6/10 then
          match candidates.find? (fun c => c.target_id = sel.target_id) with
          | some _ => some ⟨sel.target_id, confidence, sel.reasoning⟩
          | none => none
        else none)

/-! ## Analyzer — `analyzer.py` -/

/-- The graph structure `build_trace_graph` produces, as the analyzer reads
it: `typeOf id` is `graph['nodes'][id]['type']` and the two edge maps are
read with `.get(id, [])`, so they are total functions here. -/
structure TraceGraph where
  typeOf : String → String
  edges_down : String → List String
  edges_up : String → List String

/-- `EXPECTED_CHAIN_DEPTH.get(t, 1)`: the expected root-to-leaf depth per
root type, defaulting to 1 for unknown types. -/
def EXPECTED_CHAIN_DEPTH (t : String) : ℕ :=
  if t = "SYSTEM_REQ" then 5
  else if t = "SYSTEM_REQ_DECOMPOSED" then 4
  else if t = "HLR" then 3
  else if t = "LLR" then 2
  else if t = "CODE_VAR" then 1
  else 1

/-- `EXPECTED_TERMINAL_TYPE.get(t, 'CODE_VAR')`: the table maps the four
requirement types to `CODE_VAR` and the `.get` default is also `CODE_VAR`. -/
def EXPECTED_TERMINAL_TYPE (t : String) : String :=
  if t = "SYSTEM_REQ" then "CODE_VAR"
  else if t = "SYSTEM_REQ_DECOMPOSED" then "CODE_VAR"
  else if t = "HLR" then "CODE_VAR"
  else if t = "LLR" then "CODE_VAR"
  else "CODE_VAR"

/-- `classify_chain` from `analyzer.py`: the empty chain returns
`INCOMPLETE` at the top of the function; otherwise the branch cascade runs
in source order — COMPLETE, then PARTIAL, then INCOMPLETE, else BROKEN. -/
def classify_chain (g : TraceGraph) (chain : List String) : String :=
  match chain with
  | [] => "INCOMPLETE"
  | s :: rest =>
    let start_type := g.typeOf s
    let terminal_type := g.typeOf ((s :: rest).getLast (List.cons_ne_nil s rest))
    let expected_depth := EXPECTED_CHAIN_DEPTH start_type
    let expected_terminal := EXPECTED_TERMINAL_TYPE start_type
    let actual_depth := (s :: rest).length
    if terminal_type = expected_terminal ∧ actual_depth ≥ expected_depth then
      "COMPLETE"
    else if actual_depth > 1 ∧ actual_depth < expected_depth then "PARTIAL"
    else if actual_depth = 1 then "INCOMPLETE"
    else "BROKEN"

/-- The recursive `dfs` inside `trace_chain_forward`.  The Python function
recurses into every child with no cycle guard of any kind; the explicit fuel
argument makes that recursion a total Lean function, with `none` meaning the
recursion depth exceeded the fuel — so an input on which the result is
`none` for every fuel is an input on which the Python code never returns. -/
def trace_dfs (edges : String → List String) :
    ℕ → String → List String → Option (List (List String))
  | 0, _, _ => none
  | Nat.succ fuel, node_id, path =>
    let current_path := path ++ [node_id]
    match edges node_id with
    | [] => some [current_path]
    | c :: cs =>
      (optionMapM (fun child_id => trace_dfs edges fuel child_id current_path)
        (c :: cs)).map List.flatten

/-- `trace_chain_forward`: run the DFS from the start node with the empty
path. -/
def trace_chain_forward (edges : String → List String) (fuel : ℕ)
    (start_id : String) : Option (List (List String)) :=
  trace_dfs edges fuel start_id []

/-- The guarded DFS of `hierarchical_analyzer._find_all_chains`, for
contrast: a per-branch visited set is threaded through and a revisited node
ends the branch.  The same fuel discipline is used so the two models are
directly comparable. -/
def find_all_chains_dfs (edges : String → List String) :
    ℕ → String → List String → List String → Option (List (List String))
  | 0, _, _, _ => none
  | Nat.succ fuel, node_id, path, visited =>
    if visited.contains node_id then some []
    else
      let current_path := path ++ [node_id]
      let visited' := visited ++ [node_id]
      match edges node_id with
      | [] => some [current_path]
      | c :: cs =>
        (optionMapM
          (fun child_id => find_all_chains_dfs edges fuel child_id current_path visited')
          (c :: cs)).map List.flatten

/-- One record of the `find_orphans` output lists: the artifact id, its
type, the expected parent/child type looked up for the record, and the
reason string. -/
structure OrphanRecord where
  artifact_id : String
  atype : String
  expected_type : Option String
  reason : String
deriving DecidableEq, Repr

/-- The three orphan buckets `find_orphans` returns. -/
structure Orphans where
  no_parent : List OrphanRecord
  no_children : List OrphanRecord
  isolated : List OrphanRecord
deriving DecidableEq, Repr

/-- `get_expected_parent_type` from `id_utils.py`. -/
def get_expected_parent_type (t : String) : Option String :=
  if t = "SYSTEM_REQ_DECOMPOSED" then some "SYSTEM_REQ"
  else if t = "HLR" then some "SYSTEM_REQ_DECOMPOSED"
  else if t = "LLR" then some "HLR"
  else if t = "CODE_VAR" then some "LLR"
  else none

/-- `get_expected_child_type` from `id_utils.py`. -/
def get_expected_child_type (t : String) : Option String :=
  if t = "SYSTEM_REQ" then some "SYSTEM_REQ_DECOMPOSED"
  else if t = "SYSTEM_REQ_DECOMPOSED" then some "HLR"
  else if t = "HLR" then some "LLR"
  else if t = "LLR" then some "CODE_VAR"
  else none

/-- The type lists of `find_orphans`. -/
def TYPES_REQUIRING_PARENT : List String := ["HLR", "LLR", "CODE_VAR"]

/-- The type lists of `find_orphans`. -/
def TYPES_REQUIRING_CHILDREN : List String :=
  ["SYSTEM_REQ", "SYSTEM_REQ_DECOMPOSED", "HLR", "LLR"]

/-- `find_orphans` from `analyzer.py`: one pass over the artifacts appending
to the three buckets, which is equivalent to the three order-preserving
`filterMap`s written here.  The analyzer passes each artifact's graph
adjacency through `.get(id, [])`, modelled by the total edge maps. -/
def find_orphans (g : TraceGraph) (artifacts : List Artifact) : Orphans :=
  { no_parent := artifacts.filterMap (fun a =>
      if TYPES_REQUIRING_PARENT.contains a.atype ∧ g.edges_up a.id = [] then
        some ⟨a.id, a.atype, get_expected_parent_type a.atype,
          a.atype ++ " has no parent link"⟩
      else none)
    no_children := artifacts.filterMap (fun a =>
      if TYPES_REQUIRING_CHILDREN.contains a.atype ∧ g.edges_down a.id = [] then
        some ⟨a.id, a.atype, get_expected_child_type a.atype,
          a.atype ++ " has no child links"⟩
      else none)
    isolated := artifacts.filterMap (fun a =>
      if g.edges_up a.id = [] ∧ g.edges_down a.id = [] ∧
          a.atype ≠ "SYSTEM_REQ" then
        some ⟨a.id, a.atype, none, "Artifact has no links at all"⟩
      else none) }

/-- One gap dict of `identify_gaps`; fields absent from a given gap kind in
the Python dicts hold the neutral defaults here. -/
structure Gap where
  gap_id : String
  gtype : String
  severity : String
  artifact_id : String
  artifact_type : String
  expected_type : Option String
  chain : List String
  classification : String
  expected_depth : ℕ
  actual_depth : ℕ
  description : String
deriving DecidableEq, Repr

/-- `f"GAP-{n:03d}"`: zero-padded three-digit sequential gap id. -/
def gapId (n : ℕ) : String :=
  "GAP-" ++ (if n < 10 then "00" else if n < 100 then "0" else "") ++ toString n

/-- The gap dict built for a missing-parent orphan: severity is always
`high`. -/
def mkNoParentGap (n : ℕ) (o : OrphanRecord) : Gap :=
  ⟨gapId n, "orphan_no_parent", "high", o.artifact_id, o.atype,
    o.expected_type, [], "", 0, 0, o.atype ++ " has no parent link"⟩

/-- The severity cascade for a missing-children orphan: `critical` for the
two system-requirement types, `high` for `HLR`, otherwise the initial
`medium`. -/
def noChildrenSeverity (t : String) : String :=
  if t = "SYSTEM_REQ" ∨ t = "SYSTEM_REQ_DECOMPOSED" then "critical"
  else if t = "HLR" then "high"
  else "medium"

/-- The gap dict built for a missing-children orphan. -/
def mkNoChildrenGap (n : ℕ) (o : OrphanRecord) : Gap :=
  ⟨gapId n, "orphan_no_children", noChildrenSeverity o.atype, o.artifact_id,
    o.atype, o.expected_type, [], "", 0, 0, o.atype ++ " has no child links"⟩

/-- The gap dict built for a flagged chain: severity `high` exactly when the
classification is `INCOMPLETE`, else `medium`. -/
def mkChainGap (n : ℕ) (root : Artifact) (c : List String)
    (classification : String) : Gap :=
  ⟨gapId n, "incomplete_chain",
    if classification = "INCOMPLETE" then "high" else "medium",
    "", "", none, c, classification, EXPECTED_CHAIN_DEPTH root.atype,
    c.length, "Incomplete trace chain from " ++ root.id⟩

/-- `identify_gaps` from `analyzer.py`: missing-parent gaps in orphan order,
then missing-children gaps, then one gap per enumerated chain whose
classification is INCOMPLETE, PARTIAL or BROKEN, with the sequential counter
running across all three sections.  The chain enumeration inherits the fuel
of `trace_chain_forward`; exhausted fuel surfaces as `none`. -/
def identify_gaps (fuel : ℕ) (g : TraceGraph) (artifacts : List Artifact)
    (orphans : Orphans) : Option (List Gap) :=
  match optionMapM
      (fun a => (trace_chain_forward g.edges_down fuel a.id).map (fun cs => (a, cs)))
      (artifacts.filter (fun a => a.atype = "SYSTEM_REQ")) with
  | none => none
  | some chain_sets =>
    let gaps1 := orphans.no_parent.mapIdx (fun i o => mkNoParentGap (1 + i) o)
    let gaps2 := orphans.no_children.mapIdx
      (fun i o => mkNoChildrenGap (1 + orphans.no_parent.length + i) o)
    let flagged := chain_sets.flatMap (fun p =>
      p.2.filterMap (fun c =>
        let classification := classify_chain g c
        if classification = "INCOMPLETE" ∨ classification = "PARTIAL" ∨
            classification = "BROKEN" then
          some (p.1, c, classification)
        else none))
    let gaps3 := flagged.mapIdx (fun i x =>
      mkChainGap (1 + gaps1.length + gaps2.length + i) x.1 x.2.1 x.2.2)
    some (gaps1 ++ gaps2 ++ gaps3)

/-! ## Shared helper lemmas -/

/-- The empty needle occurs in every haystack, as Python's `'' in s`. -/
theorem occursIn_nil (hay : List Char) : occursIn [] hay = true := by
  cases hay with
  | nil => rfl
  | cons c rest => simp [occursIn, matchesFront]

/-- Every entry of the terminal-type table, including the `.get` default,
is `CODE_VAR`. -/
theorem EXPECTED_TERMINAL_TYPE_eq (t : String) :
    EXPECTED_TERMINAL_TYPE t = "CODE_VAR" := by
  unfold EXPECTED_TERMINAL_TYPE
  split_ifs <;> rfl

/-- A concrete graph whose nodes are all system requirements and which has
no edges. -/
def emptyGraph : TraceGraph := ⟨fun _ => "SYSTEM_REQ", fun _ => [], fun _ => []⟩

/-! ## C10 — empty variable names get the maximal name-match signal -/

/-- C10: for every LLR text and reference list, a candidate variable whose
name is the empty string scores 1.0 in `compute_variable_name_match`, with
the exact-match reason — the empty string is a substring of every text. -/
theorem variable_name_match_empty_name (llr_text : List Char)
    (llr_refs : List (List Char)) :
    (compute_variable_name_match [] llr_text llr_refs).1 = 1 ∧
    (compute_variable_name_match [] llr_text llr_refs).2 =
      ["Exact match: " ++ String.mk [] ++ " in LLR text"] := by
  unfold compute_variable_name_match
  rw [occursIn_nil]
  exact ⟨rfl, rfl⟩

/-! ## C9 — the classifier on the empty chain -/

/-- C9 counterexample: contrary to the claim that no classification is
produced for the empty path, `classify_chain` returns the classification
`INCOMPLETE` — one of the four classification labels — on the empty
chain. -/
theorem classify_chain_empty_counterexample :
    classify_chain emptyGraph [] = "INCOMPLETE" ∧
    "INCOMPLETE" ∈ ["COMPLETE", "PARTIAL", "INCOMPLETE", "BROKEN"] :=
  ⟨rfl, by decide⟩

/-- C9 amended: on the empty chain `classify_chain` does return a
classification, namely `INCOMPLETE`, for every graph. -/
theorem classify_chain_empty (g : TraceGraph) :
    classify_chain g [] = "INCOMPLETE" := rfl

/-! ## C4 — the unguarded DFS of `trace_chain_forward` on a cyclic graph -/

/-- A two-node cycle: A → B → A, the malformed-input shape the spec says an
implementation must guard against. -/
def cycleEdges : String → List String := fun id =>
  if id = "A" then ["B"] else if id = "B" then ["A"] else []

/-- On the two-node cycle, the unguarded DFS of `trace_chain_forward` never
produces a result at either node, whatever fuel it is given. -/
theorem trace_dfs_cycle_aux (fuel : ℕ) :
    (∀ path, trace_dfs cycleEdges fuel "A" path = none) ∧
    (∀ path, trace_dfs cycleEdges fuel "B" path = none) := by
  induction fuel with
  | zero => exact ⟨fun _ => rfl, fun _ => rfl⟩
  | succ n ih =>
    have hA : cycleEdges "A" = ["B"] := by simp [cycleEdges]
    have hB : cycleEdges "B" = ["A"] := by simp [cycleEdges]
    constructor
    · intro path
      simp only [trace_dfs, hA, optionMapM, ih.2]
      rfl
    · intro path
      simp only [trace_dfs, hB, optionMapM, ih.1]
      rfl

/-- C4: `trace_chain_forward` in `analyzer.py` has no visited set and
diverges on the A ⇄ B cycle — the fuel model returns `none` for every fuel
value, so no recursion depth suffices and the enumeration is not total on
cyclic malformed input. -/
theorem trace_chain_forward_cycle_diverges :
    ∀ fuel, trace_chain_forward cycleEdges fuel "A" = none :=
  fun fuel => (trace_dfs_cycle_aux fuel).1 []

/-! ## C7 — combined-score monotonicity and range -/

/-- C7 counterexample: the clamp in `compute_combined_score` is one-sided.
With the function's default weights, an embedding similarity of −1 (cosine
similarity may be negative) yields a negative score, outside [0,1]; and for
a fixed weight dictionary with a negative embedding weight the score is not
monotone in the embedding signal. -/
theorem combined_score_clamp_counterexample :
    compute_combined_score (-1) 0 false 0 0 defaultWeights < 0 ∧
    compute_combined_score 1 0 false 0 0 ⟨-1, 0, 0, 0⟩ <
      compute_combined_score 0 0 false 0 0 ⟨-1, 0, 0, 0⟩ := by
  constructor <;> norm_num [compute_combined_score, defaultWeights]

/-- C7 amended: for weight dictionaries with nonnegative entries (the
defaults are), the combined score is monotonically non-decreasing in each of
the five signals with the others held fixed; it never exceeds 1; and it lies
in [0,1] whenever the signals and the boost are nonnegative — the code
clamps only from above, so negative signal values can drive it below 0. -/
theorem combined_score_monotone_bounds (w : Weights)
    (hwe : 0 ≤ w.embedding) (hwk : 0 ≤ w.keyword) (hwq : 0 ≤ w.quantity)
    (hwn : 0 ≤ w.name) (e e' k k' nm nm' b b' : ℚ) (q : Bool) :
    (e ≤ e' → compute_combined_score e k q nm b w ≤
      compute_combined_score e' k q nm b w) ∧
    (k ≤ k' → compute_combined_score e k q nm b w ≤
      compute_combined_score e k' q nm b w) ∧
    (compute_combined_score e k false nm b w ≤
      compute_combined_score e k true nm b w) ∧
    (nm ≤ nm' → compute_combined_score e k q nm b w ≤
      compute_combined_score e k q nm' b w) ∧
    (b ≤ b' → compute_combined_score e k q nm b w ≤
      compute_combined_score e k q nm b' w) ∧
    compute_combined_score e k q nm b w ≤ 1 ∧
    (0 ≤ e → 0 ≤ k → 0 ≤ nm → 0 ≤ b →
      0 ≤ compute_combined_score e k q nm b w) := by
  unfold compute_combined_score
  refine ⟨fun h => ?_, fun h => ?_, ?_, fun h => ?_, fun h => ?_, min_le_left _ _,
    fun he hk hnm hb => ?_⟩
  · exact min_le_min le_rfl (by nlinarith [mul_le_mul_of_nonneg_left h hwe])
  · exact min_le_min le_rfl (by nlinarith [mul_le_mul_of_nonneg_left h hwk])
  · refine min_le_min le_rfl ?_
    have h0 : (if (false : Bool) = true then (1:ℚ) else 0) = 0 := rfl
    have h1 : (if (true : Bool) = true then (1:ℚ) else 0) = 1 := rfl
    rw [h0, h1]
    nlinarith
  · exact min_le_min le_rfl (by nlinarith [mul_le_mul_of_nonneg_left h hwn])
  · exact min_le_min le_rfl (by nlinarith)
  · refine le_min (by norm_num) ?_
    have hq : (0:ℚ) ≤ (if q then (1:ℚ) else 0) := by
      cases q <;> norm_num
    have := mul_nonneg hwq hq
    nlinarith [mul_nonneg hwe he, mul_nonneg hwk hk, mul_nonneg hwn hnm]

/-- C7 witness: the amended theorem applied at the default weights and a
concrete signal tuple. -/
theorem combined_score_monotone_bounds_witness :
    ((1:ℚ)/10 ≤ 2/10) ∧ compute_combined_score (1/10) (1/10) true (1/10) (1/10)
        defaultWeights ≤ compute_combined_score (2/10) (1/10) true (1/10) (1/10)
        defaultWeights :=
  ⟨by norm_num,
    (combined_score_monotone_bounds defaultWeights (by norm_num [defaultWeights])
      (by norm_num [defaultWeights]) (by norm_num [defaultWeights])
      (by norm_num [defaultWeights]) (1/10) (2/10) (1/10) (1/10) (1/10) (1/10)
      (1/10) (1/10) true).1 (by norm_num)⟩

/-! ## C1 — the quality gate's acceptance branches -/

/-- C1 counterexample: `LinkManager._passes_quality_filters` has a third
acceptance path the claim omits.  The signal tuple (embedding 0.06,
keyword 0, no quantity match, name 0, id boost 0.2) is accepted under the
default filters although the strong-signal branch fails and only one of the
five moderate signals is active. -/
theorem lm_quality_gate_counterexample :
    lm_passes_quality_filters defaultQualityFilters (6/100) 0 false 0 (2/10)
        = true ∧
    hasStrongSignal (6/100) 0 = false ∧
    moderateSignalCount (6/100) 0 false 0 (2/10) < 2 := by
  refine ⟨?_, ?_, ?_⟩ <;>
    norm_num [lm_passes_quality_filters, defaultQualityFilters, hasStrongSignal,
      moderateSignalCount]

/-- C1 amended: under the default filters, the hierarchical gate accepts
only tuples satisfying the strong-signal branch or at least two of the five
moderate signals; the `LinkManager` gate additionally accepts a tuple whose
id boost exceeds 0.10 with at least one active moderate signal, and every
tuple it accepts satisfies one of these three conditions. -/
theorem quality_gate_two_tier (combined emb kw : ℚ) (qty : Bool)
    (nm boost : ℚ) :
    (hier_passes_quality_filters defaultQualityFilters combined emb kw qty nm
        boost = true →
      hasStrongSignal emb kw = true ∨
        2 ≤ moderateSignalCount emb kw qty nm boost) ∧
    (lm_passes_quality_filters defaultQualityFilters emb kw qty nm boost
        = true →
      hasStrongSignal emb kw = true ∨
        2 ≤ moderateSignalCount emb kw qty nm boost ∨
        (boost > 10/100 ∧ 1 ≤ moderateSignalCount emb kw qty nm boost)) := by
  constructor
  · intro h
    unfold hier_passes_quality_filters at h
    split_ifs at h with h1 h2
    · exact Or.inl h2
    · exact Or.inr (by simpa [defaultQualityFilters] using of_decide_eq_true h)
  · intro h
    unfold lm_passes_quality_filters at h
    split_ifs at h with h1 h2 h3 h4
    · exact Or.inl h2
    · exact Or.inr (Or.inl (by simpa [defaultQualityFilters] using h3))
    · exact Or.inr (Or.inr h4)

/-- C1 witness: the amended theorem applied to a tuple with a strong
embedding signal, accepted by both gates. -/
theorem quality_gate_two_tier_witness :
    hier_passes_quality_filters defaultQualityFilters (1/2) (4/10) 0 false 0 0
        = true ∧
    (hasStrongSignal (4/10) 0 = true ∨
      2 ≤ moderateSignalCount (4/10) 0 false 0 0) := by
  have hacc : hier_passes_quality_filters defaultQualityFilters (1/2) (4/10) 0
      false 0 0 = true := by
    norm_num [hier_passes_quality_filters, defaultQualityFilters, hasStrongSignal]
  exact ⟨hacc, (quality_gate_two_tier (1/2) (4/10) 0 false 0 0).1 hacc⟩

/-! ## C3 — fallback behavior of `_llm_select_targets` -/

/-- C3 counterexample: a response that parses but whose only selected target
has confidence 0.5 — below the 0.6 floor — does not trigger the top-3
fallback; the function returns the empty selection even though the candidate
list is non-empty, so adjudication can yield zero accepted targets. -/
theorem llm_select_below_floor_counterexample :
    llm_select_targets [⟨"HLR-001-A", 1/2⟩]
        (LLMOutcome.parsed [⟨"HLR-001-A", some (1/2), "weak"⟩]) = [] ∧
    ([⟨"HLR-001-A", (1/2 : ℚ)⟩] : List LinkCandidate) ≠ [] := by
  constructor
  · show List.filterMap _ _ = []
    simp only [List.filterMap]
    norm_num
  · simp

/-- C3 amended: the top-3 fallback fires on the two genuine failure branches
— an API exception or unparsable JSON — and there it always yields the
first three generator candidates at their scores, hence a non-empty
selection whenever the candidate list is non-empty.  When the response
parses, no fallback exists: selections below the 0.6 floor are simply
dropped. -/
theorem llm_select_fallback_nonempty (candidates : List LinkCandidate)
    (outcome : LLMOutcome)
    (hfail : outcome = LLMOutcome.apiError ∨ outcome = LLMOutcome.parseError)
    (hne : candidates ≠ []) :
    (llm_select_targets candidates outcome).map
        (fun s => (s.target_id, s.confidence)) =
      (candidates.take 3).map (fun c => (c.target_id, c.score)) ∧
    llm_select_targets candidates outcome ≠ [] := by
  have htake : (candidates.take 10).take 3 = candidates.take 3 := by
    rw [List.take_take]
    norm_num
  have hmap : ∀ reason, (llmFallback (candidates.take 10) reason).map
      (fun s => (s.target_id, s.confidence)) =
      (candidates.take 3).map (fun c => (c.target_id, c.score)) := by
    intro reason
    unfold llmFallback
    rw [htake, List.map_map]
    rfl
  have hne3 : candidates.take 3 ≠ [] := by
    cases candidates with
    | nil => exact absurd rfl hne
    | cons c cs => simp [List.take]
  rcases hfail with h | h <;> subst h
  · have heq : llm_select_targets candidates LLMOutcome.apiError =
        llmFallback (candidates.take 10)
          "LLM unavailable, using multi-signal match" := rfl
    refine ⟨by rw [heq]; exact hmap _, ?_⟩
    rw [heq]
    intro hempty
    have hm := hmap "LLM unavailable, using multi-signal match"
    rw [hempty] at hm
    exact hne3 (by simpa using hm.symm)
  · have heq : llm_select_targets candidates LLMOutcome.parseError =
        llmFallback (candidates.take 10)
          "JSON parse failed, using multi-signal match" := rfl
    refine ⟨by rw [heq]; exact hmap _, ?_⟩
    rw [heq]
    intro hempty
    have hm := hmap "JSON parse failed, using multi-signal match"
    rw [hempty] at hm
    exact hne3 (by simpa using hm.symm)

/-- C3 witness: the amended theorem applied to a one-candidate list and an
API failure. -/
theorem llm_select_fallback_nonempty_witness :
    llm_select_targets [⟨"LLR-001-A-1", 9/10⟩] LLMOutcome.apiError ≠ [] :=
  (llm_select_fallback_nonempty [⟨"LLR-001-A-1", 9/10⟩] LLMOutcome.apiError
    (Or.inl rfl) (by simp)).2

/-! ## C8 — parent references inferred from identifiers -/

/-- C8 counterexample: on the conforming identifier `HLR-001-A` the resolver
returns parent reference `SYS-001`, not the suffix-preserving `SYS-001-A`
the claim states. -/
theorem extract_id_hierarchy_counterexample :
    (extract_id_hierarchy "HLR-001-A").parent_ref = some "SYS-001" ∧
    (extract_id_hierarchy "HLR-001-A").parent_ref ≠ some "SYS-001-A" := by
  constructor
  · rfl
  · decide

/-- Splitting a separator-free list yields that list alone. -/
theorem splitOnChar_no_sep (sep : Char) (xs : List Char)
    (h : ∀ c ∈ xs, c ≠ sep) : splitOnChar sep xs = [xs] := by
  induction xs with
  | nil => rfl
  | cons c rest ih =>
    have hc : c ≠ sep := h c (by simp)
    have hrest := ih (fun d hd => h d (by simp [hd]))
    simp only [splitOnChar, if_neg hc, hrest]

/-- Splitting distributes over the first separator when the leading segment
is separator-free. -/
theorem splitOnChar_append (sep : Char) (xs ys : List Char)
    (h : ∀ c ∈ xs, c ≠ sep) :
    splitOnChar sep (xs ++ sep :: ys) = xs :: splitOnChar sep ys := by
  induction xs with
  | nil => simp [splitOnChar]
  | cons c rest ih =>
    have hc : c ≠ sep := h c (by simp)
    have hrest := ih (fun d hd => h d (by simp [hd]))
    simp only [List.cons_append, splitOnChar, if_neg hc, List.append_eq, hrest]

/-- A digit character is not a dash. -/
theorem digit_ne_dash (c : Char) (h : isDigit09 c = true) : c ≠ '-' := by
  intro hc
  subst hc
  exact absurd h (by decide)

/-- An uppercase character is not a dash. -/
theorem upper_ne_dash (c : Char) (h : isUpperAZ c = true) : c ≠ '-' := by
  intro hc
  subst hc
  exact absurd h (by decide)

/-- C8 amended: for every conforming identifier of shape
`HLR-number-letters` the resolver's parent reference drops the suffix and is
`SYS-number`; for shapes `LLR-number-letters` and `LLR-number-letters-digits`
it is `HLR-number-letters` in both cases.  In particular `HLR-001-A` maps to
`SYS-001`, not `SYS-001-A`. -/
theorem extract_id_hierarchy_parent_ref (n l d : List Char)
    (hn : digitSeg n = true) (hl : upperSeg l = true)
    (hd : digitSeg d = true) :
    (extract_id_hierarchy
        (String.mk ('H' :: 'L' :: 'R' :: '-' :: (n ++ '-' :: l)))).parent_ref =
      some ("SYS-" ++ String.mk n) ∧
    (extract_id_hierarchy
        (String.mk ('L' :: 'L' :: 'R' :: '-' :: (n ++ '-' :: l)))).parent_ref =
      some ("HLR-" ++ String.mk n ++ "-" ++ String.mk l) ∧
    (extract_id_hierarchy
        (String.mk ('L' :: 'L' :: 'R' :: '-' ::
          (n ++ '-' :: (l ++ '-' :: d))))).parent_ref =
      some ("HLR-" ++ String.mk n ++ "-" ++ String.mk l) := by
  have hnd : ∀ c ∈ n, c ≠ '-' := by
    intro c hc
    have := List.all_eq_true.mp (Bool.and_elim_right hn) c hc
    exact digit_ne_dash c this
  have hld : ∀ c ∈ l, c ≠ '-' := by
    intro c hc
    exact upper_ne_dash c (List.all_eq_true.mp (Bool.and_elim_right hl) c hc)
  have hdd : ∀ c ∈ d, c ≠ '-' := by
    intro c hc
    exact digit_ne_dash c (List.all_eq_true.mp (Bool.and_elim_right hd) c hc)
  have hsplit : ∀ p0 p1 p2 : Char, (∀ c ∈ [p0, p1, p2], c ≠ '-') →
      splitOnChar '-' (p0 :: p1 :: p2 :: '-' :: (n ++ '-' :: l)) =
        [[p0, p1, p2], n, l] := by
    intro p0 p1 p2 hp
    have h1 : splitOnChar '-' (([p0, p1, p2] : List Char) ++ '-' :: (n ++ '-' :: l)) =
        [p0, p1, p2] :: splitOnChar '-' (n ++ '-' :: l) :=
      splitOnChar_append '-' [p0, p1, p2] (n ++ '-' :: l) hp
    have h2 : splitOnChar '-' (n ++ '-' :: l) = n :: splitOnChar '-' l :=
      splitOnChar_append '-' n l hnd
    have h3 : splitOnChar '-' l = [l] := splitOnChar_no_sep '-' l hld
    simpa [h2, h3] using h1
  have hsplit4 : splitOnChar '-'
      ('L' :: 'L' :: 'R' :: '-' :: (n ++ '-' :: (l ++ '-' :: d))) =
        [['L','L','R'], n, l, d] := by
    have h1 : splitOnChar '-'
        ((['L','L','R'] : List Char) ++ '-' :: (n ++ '-' :: (l ++ '-' :: d))) =
        ['L','L','R'] :: splitOnChar '-' (n ++ '-' :: (l ++ '-' :: d)) :=
      splitOnChar_append '-' ['L','L','R'] (n ++ '-' :: (l ++ '-' :: d)) (by decide)
    have h2 : splitOnChar '-' (n ++ '-' :: (l ++ '-' :: d)) =
        n :: splitOnChar '-' (l ++ '-' :: d) :=
      splitOnChar_append '-' n (l ++ '-' :: d) hnd
    have h3 : splitOnChar '-' (l ++ '-' :: d) = l :: splitOnChar '-' d :=
      splitOnChar_append '-' l d hld
    have h4 : splitOnChar '-' d = [d] := splitOnChar_no_sep '-' d hdd
    simpa [h2, h3, h4] using h1
  have hpH : parseArtifactId (String.mk ('H' :: 'L' :: 'R' :: '-' :: (n ++ '-' :: l))) =
      some (['H','L','R'], n, some l, none) := by
    have hs := hsplit 'H' 'L' 'R' (by decide)
    unfold parseArtifactId
    rw [show (String.mk ('H' :: 'L' :: 'R' :: '-' :: (n ++ '-' :: l))).data =
      'H' :: 'L' :: 'R' :: '-' :: (n ++ '-' :: l) from rfl, hs]
    show (if (upperSeg ['H','L','R'] && digitSeg n) = true then
        if upperSeg l = true then some ((['H','L','R'] : List Char), n, some l, none)
        else if digitSeg l = true then some ((['H','L','R'] : List Char), n, none, some l)
        else none
      else none) = some ((['H','L','R'] : List Char), n, some l, none)
    rw [show upperSeg ['H','L','R'] = true from by decide, hn, hl]
    rfl
  have hpL : parseArtifactId (String.mk ('L' :: 'L' :: 'R' :: '-' :: (n ++ '-' :: l))) =
      some (['L','L','R'], n, some l, none) := by
    have hs := hsplit 'L' 'L' 'R' (by decide)
    unfold parseArtifactId
    rw [show (String.mk ('L' :: 'L' :: 'R' :: '-' :: (n ++ '-' :: l))).data =
      'L' :: 'L' :: 'R' :: '-' :: (n ++ '-' :: l) from rfl, hs]
    show (if (upperSeg ['L','L','R'] && digitSeg n) = true then
        if upperSeg l = true then some ((['L','L','R'] : List Char), n, some l, none)
        else if digitSeg l = true then some ((['L','L','R'] : List Char), n, none, some l)
        else none
      else none) = some ((['L','L','R'] : List Char), n, some l, none)
    rw [show upperSeg ['L','L','R'] = true from by decide, hn, hl]
    rfl
  have hpL4 : parseArtifactId (String.mk
      ('L' :: 'L' :: 'R' :: '-' :: (n ++ '-' :: (l ++ '-' :: d)))) =
      some (['L','L','R'], n, some l, some d) := by
    unfold parseArtifactId
    rw [show (String.mk ('L' :: 'L' :: 'R' :: '-' :: (n ++ '-' :: (l ++ '-' :: d)))).data =
      'L' :: 'L' :: 'R' :: '-' :: (n ++ '-' :: (l ++ '-' :: d)) from rfl, hsplit4]
    show (if (upperSeg ['L','L','R'] && digitSeg n && upperSeg l && digitSeg d) = true then
        some ((['L','L','R'] : List Char), n, some l, some d)
      else none) = some ((['L','L','R'] : List Char), n, some l, some d)
    rw [show upperSeg ['L','L','R'] = true from by decide, hn, hl, hd]
    rfl
  refine ⟨?_, ?_, ?_⟩
  · unfold extract_id_hierarchy
    rw [hpH]
    show (if (String.mk ['H','L','R'] : String) = "HLR"
        then some ("SYS-" ++ String.mk n)
        else if (String.mk ['H','L','R'] : String) = "LLR"
          then some ("HLR-" ++ String.mk n ++ "-" ++ String.mk l)
          else none) = some ("SYS-" ++ String.mk n)
    split_ifs with h1 h2
    · rfl
    · exact absurd (by decide) h1
    · exact absurd (by decide) h1
  · unfold extract_id_hierarchy
    rw [hpL]
    show (if (String.mk ['L','L','R'] : String) = "HLR"
        then some ("SYS-" ++ String.mk n)
        else if (String.mk ['L','L','R'] : String) = "LLR"
          then some ("HLR-" ++ String.mk n ++ "-" ++ String.mk l)
          else none) = some ("HLR-" ++ String.mk n ++ "-" ++ String.mk l)
    split_ifs with h1 h2
    · exact absurd h1 (by decide)
    · rfl
    · exact absurd (by decide) h2
  · unfold extract_id_hierarchy
    rw [hpL4]
    show (if (String.mk ['L','L','R'] : String) = "HLR"
        then some ("SYS-" ++ String.mk n)
        else if (String.mk ['L','L','R'] : String) = "LLR"
          then some ("HLR-" ++ String.mk n ++ "-" ++ String.mk l)
          else none) = some ("HLR-" ++ String.mk n ++ "-" ++ String.mk l)
    split_ifs with h1 h2
    · exact absurd h1 (by decide)
    · rfl
    · exact absurd (by decide) h2

/-- C8 witness: the amended theorem applied at number `001`, letter `A` and
sub-number `1` — the identifiers `HLR-001-A` and `LLR-001-A-1` of the spec's
examples. -/
theorem extract_id_hierarchy_parent_ref_witness :
    (extract_id_hierarchy
        (String.mk ('H' :: 'L' :: 'R' :: '-' :: (['0','0','1'] ++ '-' :: ['A'])))).parent_ref =
      some ("SYS-" ++ String.mk ['0','0','1']) ∧
    (extract_id_hierarchy
        (String.mk ('L' :: 'L' :: 'R' :: '-' ::
          (['0','0','1'] ++ '-' :: (['A'] ++ '-' :: ['1']))))).parent_ref =
      some ("HLR-" ++ String.mk ['0','0','1'] ++ "-" ++ String.mk ['A']) :=
  ⟨(extract_id_hierarchy_parent_ref ['0','0','1'] ['A'] ['1']
      (by decide) (by decide) (by decide)).1,
    (extract_id_hierarchy_parent_ref ['0','0','1'] ['A'] ['1']
      (by decide) (by decide) (by decide)).2.2⟩

/-! ## C2 — classification of non-empty chains -/

/-- C2: for every non-empty chain the classifier's result is characterized,
in the source's branch order, by: COMPLETE iff the terminal artifact's type
is `CODE_VAR` (the expected terminal for every root type) and the length
reaches the expected depth of the root's type; else PARTIAL iff the length
is strictly between 1 and the expected depth; else INCOMPLETE iff the
length is 1; else BROKEN. -/
theorem classify_chain_cases (g : TraceGraph) (c : List String) (h : c ≠ []) :
    (classify_chain g c = "COMPLETE" ↔
      (g.typeOf (c.getLast h) = "CODE_VAR" ∧
        EXPECTED_CHAIN_DEPTH (g.typeOf (c.head h)) ≤ c.length)) ∧
    (classify_chain g c = "PARTIAL" ↔
      (¬(g.typeOf (c.getLast h) = "CODE_VAR" ∧
          EXPECTED_CHAIN_DEPTH (g.typeOf (c.head h)) ≤ c.length) ∧
        1 < c.length ∧ c.length < EXPECTED_CHAIN_DEPTH (g.typeOf (c.head h)))) ∧
    (classify_chain g c = "INCOMPLETE" ↔
      (¬(g.typeOf (c.getLast h) = "CODE_VAR" ∧
          EXPECTED_CHAIN_DEPTH (g.typeOf (c.head h)) ≤ c.length) ∧
        c.length = 1)) ∧
    (classify_chain g c = "BROKEN" ↔
      (¬(g.typeOf (c.getLast h) = "CODE_VAR" ∧
          EXPECTED_CHAIN_DEPTH (g.typeOf (c.head h)) ≤ c.length) ∧
        ¬(1 < c.length ∧ c.length < EXPECTED_CHAIN_DEPTH (g.typeOf (c.head h))) ∧
        c.length ≠ 1)) := by
  cases c with
  | nil => exact absurd rfl h
  | cons s rest =>
    have hhead : (s :: rest).head h = s := rfl
    have hcc : classify_chain g (s :: rest) =
        (if g.typeOf ((s :: rest).getLast h) =
              EXPECTED_TERMINAL_TYPE (g.typeOf s) ∧
            (s :: rest).length ≥ EXPECTED_CHAIN_DEPTH (g.typeOf s) then
          "COMPLETE"
        else if (s :: rest).length > 1 ∧
            (s :: rest).length < EXPECTED_CHAIN_DEPTH (g.typeOf s) then "PARTIAL"
        else if (s :: rest).length = 1 then "INCOMPLETE"
        else "BROKEN") := rfl
    rw [hcc, EXPECTED_TERMINAL_TYPE_eq, hhead]
    by_cases h1 : g.typeOf ((s :: rest).getLast h) = "CODE_VAR" ∧
        EXPECTED_CHAIN_DEPTH (g.typeOf s) ≤ (s :: rest).length
    · rw [if_pos (by exact ⟨h1.1, h1.2⟩)]
      refine ⟨iff_of_true rfl h1, ?_, ?_, ?_⟩
      · exact iff_of_false (by decide) (fun hc => hc.1 h1)
      · exact iff_of_false (by decide) (fun hc => hc.1 h1)
      · exact iff_of_false (by decide) (fun hc => hc.1 h1)
    · rw [if_neg (by exact fun hc => h1 ⟨hc.1, hc.2⟩)]
      by_cases h2 : 1 < (s :: rest).length ∧
          (s :: rest).length < EXPECTED_CHAIN_DEPTH (g.typeOf s)
      · rw [if_pos (by exact ⟨h2.1, h2.2⟩)]
        refine ⟨iff_of_false (by decide) h1, iff_of_true rfl ⟨h1, h2.1, h2.2⟩, ?_, ?_⟩
        · exact iff_of_false (by decide) (fun hc => absurd hc.2 (ne_of_gt h2.1))
        · exact iff_of_false (by decide) (fun hc => hc.2.1 h2)
      · rw [if_neg (by exact fun hc => h2 ⟨hc.1, hc.2⟩)]
        by_cases h3 : (s :: rest).length = 1
        · rw [if_pos h3]
          refine ⟨iff_of_false (by decide) h1, ?_, iff_of_true rfl ⟨h1, h3⟩, ?_⟩
          · exact iff_of_false (by decide) (fun hc => h2 hc.2)
          · exact iff_of_false (by decide) (fun hc => hc.2.2 h3)
        · rw [if_neg h3]
          refine ⟨iff_of_false (by decide) h1, ?_, ?_, iff_of_true rfl ⟨h1, h2, h3⟩⟩
          · exact iff_of_false (by decide) (fun hc => h2 hc.2)
          · exact iff_of_false (by decide) (fun hc => h3 hc.2)

/-- A two-node graph for the depth-2 example of the claim: `S1` is a
`SYSTEM_REQ` decomposed into `D1`, a `SYSTEM_REQ_DECOMPOSED` with no
further children. -/
def chainGraph2 : TraceGraph :=
  ⟨fun id => if id = "S1" then "SYSTEM_REQ" else "SYSTEM_REQ_DECOMPOSED",
    fun id => if id = "S1" then ["D1"] else [], fun _ => []⟩

/-- C2 witness: the characterization applied to the depth-2 chain
`S1 → D1` rooted at a `SYSTEM_REQ` and terminating at a
`SYSTEM_REQ_DECOMPOSED`: it is classified PARTIAL. -/
theorem classify_chain_cases_witness :
    classify_chain chainGraph2 ["S1", "D1"] = "PARTIAL" :=
  ((classify_chain_cases chainGraph2 ["S1", "D1"] (by decide)).2.1).mpr
    (by refine ⟨fun hc => ?_, by decide, by decide⟩
        exact absurd hc.1 (by decide))

/-! ## C5 — gap severities assigned by the detector -/

/-- C5: every gap the detector emits — over any graph, artifact list and
fuel for which the enumeration finishes, with the orphan buckets computed by
`find_orphans` — carries the severity dictated by its kind: missing-parent
gaps are `high`; missing-children gaps follow the artifact-type cascade
(`critical` for the two system-requirement types, `high` for `HLR`, else
`medium`); chain gaps are `high` exactly when the chain classified
INCOMPLETE, else `medium`. -/
theorem identify_gaps_severity (fuel : ℕ) (g : TraceGraph)
    (artifacts : List Artifact) (gaps : List Gap)
    (h : identify_gaps fuel g artifacts (find_orphans g artifacts) = some gaps) :
    ∀ gap ∈ gaps,
      (gap.gtype = "orphan_no_parent" → gap.severity = "high") ∧
      (gap.gtype = "orphan_no_children" →
        gap.severity = noChildrenSeverity gap.artifact_type) ∧
      (gap.gtype = "incomplete_chain" →
        gap.severity =
          if gap.classification = "INCOMPLETE" then "high" else "medium") := by
  unfold identify_gaps at h
  split at h
  · exact absurd h (by simp)
  · rename_i chain_sets hcs
    rw [Option.some_inj] at h
    subst h
    intro gap hmem
    rw [List.mem_append, List.mem_append] at hmem
    rcases hmem with (hmem | hmem) | hmem
    · rw [List.mem_mapIdx] at hmem
      obtain ⟨i, hi, heq⟩ := hmem
      subst heq
      refine ⟨fun _ => rfl, fun habs => ?_, fun habs => ?_⟩
      · simp [mkNoParentGap] at habs
      · simp [mkNoParentGap] at habs
    · rw [List.mem_mapIdx] at hmem
      obtain ⟨i, hi, heq⟩ := hmem
      subst heq
      refine ⟨fun habs => ?_, fun _ => rfl, fun habs => ?_⟩
      · simp [mkNoChildrenGap] at habs
      · simp [mkNoChildrenGap] at habs
    · rw [List.mem_mapIdx] at hmem
      obtain ⟨i, hi, heq⟩ := hmem
      subst heq
      refine ⟨fun habs => ?_, fun habs => ?_, fun _ => rfl⟩
      · simp [mkChainGap] at habs
      · simp [mkChainGap] at habs

/-- A one-artifact analysis input: a single `SYSTEM_REQ` with no links. -/
def arts5 : List Artifact := [⟨"S1", "SYSTEM_REQ", [], [], []⟩]

/-- C5 witness: on the one-artifact input the detector emits the
missing-children gap for the childless `SYSTEM_REQ`, and the theorem gives
it severity `critical`; the record's severity field agrees. -/
theorem identify_gaps_severity_witness :
    (mkNoChildrenGap 1 ⟨"S1", "SYSTEM_REQ", some "SYSTEM_REQ_DECOMPOSED",
        "SYSTEM_REQ has no child links"⟩).severity = "critical" := by
  have hsev := (identify_gaps_severity 1 emptyGraph arts5 _ rfl
    (mkNoChildrenGap 1 ⟨"S1", "SYSTEM_REQ", some "SYSTEM_REQ_DECOMPOSED",
      "SYSTEM_REQ has no child links"⟩) (by decide)).2.1 rfl
  rw [hsev]
  decide

/-! ## C6 — shape of the candidate lists -/

/-- Elements of the truncated sorted list come from the original list. -/
theorem mem_of_take_mergeSort {p : String × ℚ} {l : List (String × ℚ)}
    {k : ℕ} (h : p ∈ (l.mergeSort scoreDesc).take k) : p ∈ l :=
  List.mem_mergeSort.mp (List.mem_of_mem_take h)

/-- The truncated sorted candidate list is sorted by score, descending. -/
theorem sorted_take_mergeSort (l : List (String × ℚ)) (k : ℕ) :
    List.Sorted (fun x y : String × ℚ => y.2 ≤ x.2)
      ((l.mergeSort scoreDesc).take k) := by
  have htrans : ∀ a b c : String × ℚ, scoreDesc a b = true →
      scoreDesc b c = true → scoreDesc a c = true := by
    intro a b c hab hbc
    exact decide_eq_true (le_trans (of_decide_eq_true hbc) (of_decide_eq_true hab))
  have htotal : ∀ a b : String × ℚ, (scoreDesc a b || scoreDesc b a) = true := by
    intro a b
    rcases le_total b.2 a.2 with h | h <;> simp [scoreDesc, h]
  have hsorted := List.sorted_mergeSort htrans htotal l
  have hsub := hsorted.sublist (List.take_sublist k (l.mergeSort scoreDesc))
  exact hsub.imp (fun hab => of_decide_eq_true hab)

/-- C6 amended: both candidate generators return a list whose every entry
names an artifact of the requested target type, sorted by combined score
descending; the `LinkManager` generator additionally excludes the source's
own id and truncates to `min top_k max_links_per_source`, while the
hierarchical generator truncates to `top_k` only and has no self-exclusion
(its callers exclude self implicitly because source and target types always
differ). -/
theorem find_candidates_shape (artifacts : List (String × Artifact))
    (fns : SignalFns) (weights : Weights) (filters : QualityFilters)
    (source : Artifact) (target_type : String) (threshold : ℚ)
    (top_k max_links : ℕ) (similar : List (String × ℚ)) :
    (∀ p ∈ hier_find_candidates artifacts fns filters source target_type
        threshold top_k similar,
      ∃ a, alistGet artifacts p.1 = some a ∧ a.atype = target_type) ∧
    (hier_find_candidates artifacts fns filters source target_type threshold
        top_k similar).length ≤ top_k ∧
    List.Sorted (fun x y : String × ℚ => y.2 ≤ x.2)
      (hier_find_candidates artifacts fns filters source target_type threshold
        top_k similar) ∧
    (∀ p ∈ lm_find_candidates artifacts fns weights filters source target_type
        top_k max_links similar,
      (∃ a, alistGet artifacts p.1 = some a ∧ a.atype = target_type) ∧
        p.1 ≠ source.id) ∧
    (lm_find_candidates artifacts fns weights filters source target_type top_k
        max_links similar).length ≤ min top_k max_links ∧
    List.Sorted (fun x y : String × ℚ => y.2 ≤ x.2)
      (lm_find_candidates artifacts fns weights filters source target_type
        top_k max_links similar) := by
  refine ⟨?_, List.length_take_le _ _, sorted_take_mergeSort _ _,
    ?_, List.length_take_le _ _, sorted_take_mergeSort _ _⟩
  · intro p hp
    have hp' := mem_of_take_mergeSort hp
    obtain ⟨x, hx, hfx⟩ := List.mem_filterMap.mp hp'
    rcases halist : alistGet artifacts x.1 with _ | target
    · simp only [halist] at hfx
      exact Option.noConfusion hfx
    · simp only [halist] at hfx
      split_ifs at hfx with h1 <;>
        first
          | exact Option.noConfusion hfx
          | (rw [Option.some_inj] at hfx; subst hfx;
             exact ⟨target, halist, not_not.mp h1⟩)
  · intro p hp
    have hp' := mem_of_take_mergeSort hp
    obtain ⟨x, hx, hfx⟩ := List.mem_filterMap.mp hp'
    by_cases hself : x.1 = source.id
    · simp only [if_pos hself] at hfx
      exact Option.noConfusion hfx
    · simp only [if_neg hself] at hfx
      rcases halist : alistGet artifacts x.1 with _ | candidate
      · simp only [halist] at hfx
        exact Option.noConfusion hfx
      · simp only [halist] at hfx
        split_ifs at hfx with h1 <;>
          first
            | exact Option.noConfusion hfx
            | (rw [Option.some_inj] at hfx; subst hfx;
               exact ⟨⟨candidate, halist, not_not.mp h1⟩, hself⟩)

/-- A minimal HLR artifact used for the concrete candidate-generation
inputs. -/
def selfArtifact : Artifact := ⟨"A", "HLR", [], [], []⟩

/-- A second HLR artifact, distinct from `selfArtifact`. -/
def otherArtifact : Artifact := ⟨"B", "HLR", [], [], []⟩

/-- Signal functions returning the neutral scores, standing in for the
keyword and quantity scorers. -/
def zeroSignals : SignalFns := ⟨fun _ _ => (0, []), fun _ _ => (false, [])⟩

/-- The one-letter id `A` does not match the id pattern. -/
theorem hparseA : extract_id_hierarchy "A" = ⟨"A", none, none, none⟩ := by
  decide

/-- The one-letter id `B` does not match the id pattern. -/
theorem hparseB : extract_id_hierarchy "B" = ⟨"B", none, none, none⟩ := by
  decide

/-- An id trivially shares its base's last segment with itself, earning the
0.2 boost. -/
theorem hboostAA : compute_id_relationship_boost "A" "A" = 2/10 := by
  simp [compute_id_relationship_boost, hparseA, lastDashSegment, splitOnChar]

/-- Two unrelated one-letter ids earn no boost. -/
theorem hboostAB : compute_id_relationship_boost "A" "B" = 0 := by
  simp [compute_id_relationship_boost, hparseA, hparseB, lastDashSegment,
    splitOnChar]

/-- C6 counterexample: the hierarchical generator has no self-id check.
With the source artifact `A` of type HLR itself indexed, a query for target
type HLR returns `A` as its own candidate (embedding 1.0 is a strong
signal, and the shared id base contributes a 0.2 boost), so the returned
list contains an entry whose id equals the source's id. -/
theorem hier_find_candidates_self_counterexample :
    hier_find_candidates [("A", selfArtifact)] zeroSignals
        defaultQualityFilters selfArtifact "HLR" (2/10) 20 [("A", 1)] =
      [("A", 13/20)] ∧
    selfArtifact.id = "A" := by
  constructor
  · have hcomb : compute_combined_score 1 0 false 0 (2/10) defaultWeights
        = 13/20 := by
      norm_num [compute_combined_score, defaultWeights]
    have hgate : hier_passes_quality_filters defaultQualityFilters (13/20) 1 0
        false 0 (2/10) = true := by
      norm_num [hier_passes_quality_filters, defaultQualityFilters,
        hasStrongSignal]
    simp [hier_find_candidates, alistGet, List.find?, selfArtifact,
      zeroSignals, List.filterMap_cons, List.filterMap_nil, hboostAA, hcomb,
      hgate]
    norm_num
  · rfl

/-- C6 witness: the shape theorem applied to a concrete query — the
`LinkManager` generator run on artifact `B` for source `A` — showing the
returned entry's id differs from the source id. -/
theorem find_candidates_shape_witness :
    (("B", (9/20 : ℚ)) : String × ℚ).1 ≠ selfArtifact.id := by
  have hlist : lm_find_candidates [("B", otherArtifact)] zeroSignals
      defaultWeights defaultQualityFilters selfArtifact "HLR" 10 8
      [("B", 1)] = [("B", 9/20)] := by
    have hcomb : compute_combined_score 1 0 false 0 0 defaultWeights
        = 9/20 := by
      norm_num [compute_combined_score, defaultWeights]
    have hgate : lm_passes_quality_filters defaultQualityFilters 1 0 false 0 0
        = true := by
      norm_num [lm_passes_quality_filters, defaultQualityFilters,
        hasStrongSignal]
    simp [lm_find_candidates, alistGet, List.find?, selfArtifact,
      otherArtifact, zeroSignals, List.filterMap_cons, List.filterMap_nil,
      hboostAB, hcomb, hgate]
  exact ((find_candidates_shape [("B", otherArtifact)] zeroSignals
      defaultWeights defaultQualityFilters selfArtifact "HLR" (2/10) 10 8
      [("B", 1)]).2.2.2.1 ("B", 9/20)
      (by rw [hlist]; exact List.mem_singleton_self _)).2

end TraceX
